import Mathlib

/-!
Verification development for the IDI contact reconciliation scripts
(`update_airtable_with_idi_data.py` and `test_3_contacts.py`).

Python values stored in contact dictionaries are modelled by `Value`;
Python dictionaries are modelled by association lists with unique keys;
Python strings are `String`, with character-level helpers working on
`String.data`.  All string case functions model the ASCII behaviour of
the Python originals (the repository's data is ASCII).
-/

/-- Primitive Python value occurring in the contact data: `None`, a
string, an integer (Python `int`, including ages) or a boolean.  Floats
do not occur in the scripts' contact data and are folded into `pInt`. -/
inductive Prim where
  | pNone : Prim
  | pStr : String → Prim
  | pInt : Int → Prim
  | pBool : Bool → Prim
deriving DecidableEq, Repr

/-- Model of a Python value stored in a contact dictionary: a primitive
or a list of primitives (record-id lists such as `Relations` and
`Foreclosures`). -/
inductive Value where
  | prim : Prim → Value
  | vList : List Prim → Value
deriving DecidableEq, Repr

/-- Abbreviation for the `None` value. -/
@[match_pattern] def vNone : Value := Value.prim Prim.pNone

/-- Abbreviation for a string value. -/
@[match_pattern] def vStr (s : String) : Value := Value.prim (Prim.pStr s)

/-- Abbreviation for an integer value. -/
@[match_pattern] def vInt (n : Int) : Value := Value.prim (Prim.pInt n)

/-- Abbreviation for a boolean value. -/
@[match_pattern] def vBool (b : Bool) : Value := Value.prim (Prim.pBool b)

open Value

/-- Python truthiness of a `Value` (`bool(v)`): `None`, `""`, `0`,
`False` and `[]` are falsy. -/
def truthy : Value → Bool
  | vNone => false
  | vStr s => s ≠ ""
  | vInt n => n ≠ 0
  | vBool b => b
  | vList l => l ≠ []

/-- Python `str.strip()` on a character list: drop whitespace from both
ends. -/
def pyStripList (l : List Char) : List Char :=
  ((l.dropWhile Char.isWhitespace).reverse.dropWhile Char.isWhitespace).reverse

/-- Python `str.strip()` on a `String`. -/
def pyStrip (s : String) : String := ⟨pyStripList s.data⟩

/-- Model of `AirtableIDIUpdater._is_field_empty` (lines 253-261):
`None`, a whitespace-only string, and a zero number are empty.  A
Python `bool` is an `int` (`False == 0`), so `False` is empty. -/
def isFieldEmpty : Value → Bool
  | vNone => true
  | vStr s => pyStrip s = ""
  | vInt n => n = 0
  | vBool b => !b
  | vList _ => false

/-- Python `str.title()` on a character list: an alphabetic character is
uppercased when the previous character is not alphabetic and lowercased
otherwise (ASCII model; `prevCased` tracks whether the previous
character was cased). -/
def pyTitleList : Bool → List Char → List Char
  | _, [] => []
  | prevCased, c :: cs =>
    (if c.isAlpha then (if prevCased then c.toLower else c.toUpper) else c) ::
      pyTitleList c.isAlpha cs

/-- Python `str.title()` on a `String`. -/
def pyTitle (s : String) : String := ⟨pyTitleList false s.data⟩

/-- Python `str.lower()` (ASCII model). -/
def pyLower (s : String) : String := ⟨s.data.map Char.toLower⟩

/-- Python `str.upper()` (ASCII model). -/
def pyUpper (s : String) : String := ⟨s.data.map Char.toUpper⟩

/-- Python `str.isupper()` (ASCII model): at least one cased character
and no lowercase character. -/
def pyIsUpper (l : List Char) : Bool :=
  l.any (fun c => c.isAlpha) && l.all (fun c => !c.isLower)

/-- Python `str.split()` with no argument: split on whitespace runs,
producing no empty words.  `acc` holds the current word reversed. -/
def pySplitAux : List Char → List Char → List (List Char)
  | acc, [] => if acc = [] then [] else [acc.reverse]
  | acc, c :: cs =>
    if c.isWhitespace then
      (if acc = [] then pySplitAux [] cs else acc.reverse :: pySplitAux [] cs)
    else pySplitAux (c :: acc) cs

/-- Python `address.split()` as a list of words. -/
def pySplitWs (s : String) : List (List Char) := pySplitAux [] s.data

/-- The name prefixes of `title_case_name` (line 68).  The apostrophe in
the third entry is written with an escape. -/
def namePrefixes : List String := ["Mc", "Mac", "O\x27", "De", "Van", "Von", "La", "Le"]

/-- Uppercase the first character of a character list (Python
`rest[0].upper() + rest[1:]`, with the empty list unchanged as in the
source's `if rest:` guard). -/
def upperFirst : List Char → List Char
  | [] => []
  | c :: cs => c.toUpper :: cs

/-- One iteration of the prefix loop of `title_case_name`
(lines 69-74): if the current name starts with the title-cased prefix,
uppercase the character right after the prefix (when there is one). -/
def namePrefixStep (n : List Char) (p : String) : List Char :=
  if (pyTitleList false p.data).isPrefixOf n then
    match n.drop p.data.length with
    | [] => n
    | r :: rs => p.data ++ (r.toUpper :: rs)
  else n

/-- Model of `title_case_name` (lines 59-76) on a character list: apply
`str.title()`, then run the prefix loop in order. -/
def titleCaseNameList (l : List Char) : List Char :=
  namePrefixes.foldl namePrefixStep (pyTitleList false l)

/-- Model of `title_case_name` (lines 59-76): the `if not name` guard
returns an empty name unchanged. -/
def titleCaseName (s : String) : String :=
  if s = "" then s else ⟨titleCaseNameList s.data⟩

/-- The uppercase street abbreviations of `title_case_address`
(lines 88-89). -/
def addressAbbreviations : List String :=
  ["ST", "AVE", "RD", "DR", "LN", "CT", "PL", "WAY", "BLVD",
   "N", "S", "E", "W", "NE", "NW", "SE", "SW", "US", "RT", "HWY"]

/-- Model of `title_case_address` (lines 78-99): split into words; a
word whose uppercase form is a known abbreviation is uppercased, an
all-caps word longer than one character is title-cased, anything else
is kept; words are rejoined with single spaces. -/
def titleCaseAddress (s : String) : String :=
  if s = "" then s
  else
    String.intercalate " "
      ((pySplitWs s).map (fun w =>
        if pyUpper ⟨w⟩ ∈ addressAbbreviations then pyUpper ⟨w⟩
        else if pyIsUpper w ∧ 1 < w.length then pyTitle ⟨w⟩
        else (⟨w⟩ : String)))

/-- Model of `format_phone_number` (lines 101-117): strip non-digits;
a 10-digit sequence becomes `(AAA) BBB-CCCC`; an 11-digit sequence
starting with `1` formats its trailing ten digits the same way; anything
else is returned unchanged. -/
def formatPhoneNumber (phone : String) : String :=
  if phone = "" then phone
  else
    let digits := phone.data.filter Char.isDigit
    if digits.length = 10 then
      ⟨['('] ++ digits.take 3 ++ [')', ' '] ++ (digits.drop 3).take 3 ++
        ['-'] ++ digits.drop 6⟩
    else if digits.length = 11 ∧ digits.head? = some '1' then
      ⟨['('] ++ (digits.drop 1).take 3 ++ [')', ' '] ++ (digits.drop 4).take 3 ++
        ['-'] ++ digits.drop 7⟩
    else phone

/-- Model of `clean_and_format_text` (lines 30-57).  A non-string or
falsy (empty-string) value is returned unchanged; otherwise the text is
stripped and formatted according to the field type.  The `general`
branch title-cases an all-caps text longer than two characters. -/
def cleanAndFormatText (v : Value) (fieldType : String) : Value :=
  match v with
  | vStr s =>
    if s = "" then vStr s
    else
      let t := pyStrip s
      if fieldType = "email" then vStr (pyLower t)
      else if fieldType = "name" then vStr (titleCaseName t)
      else if fieldType = "relation" then vStr (pyTitle t)
      else if fieldType = "address" then vStr (titleCaseAddress t)
      else if fieldType = "general" then
        if pyIsUpper t.data ∧ 2 < t.length then vStr (pyTitle t) else vStr t
      else vStr t
  | w => w

/-- Model of `_get_field_type` (lines 326-335). -/
def getFieldType (f : String) : String :=
  if f = "First Name" ∨ f = "Last Name" ∨ f = "Middle Name" ∨ f = "Maiden Name" then "name"
  else if f = "Email" then "email"
  else if f = "Relation to Owner" then "relation"
  else "general"

example : titleCaseName "mcdowell" = "McDowell" := by decide
example : formatPhoneNumber "5551234567" = "(555) 123-4567" := by decide

/-! ## Contact dictionaries -/

/-- A Python contact dictionary, modelled as an association list with
unique keys (insertion order preserved, as in CPython). -/
def Contact : Type := List (String × Value)

instance : DecidableEq Contact := by
  unfold Contact
  infer_instance

instance : Repr Contact := by
  unfold Contact
  infer_instance

/-- Python `d.get(k)` as `Option` (`none` when the key is absent). -/
def lookupKey (m : Contact) (k : String) : Option Value :=
  (m.find? (fun p => p.1 = k)).map Prod.snd

/-- Python `d.get(k)` with `None` standing for an absent key. -/
def fieldD (m : Contact) (k : String) : Value :=
  (lookupKey m k).getD vNone

/-- Python `d[k] = v` on an association list: overwrite the first
binding of `k` in place, or append a new binding. -/
def setKey : Contact → String → Value → Contact
  | [], k, v => [(k, v)]
  | (k', v') :: rest, k, v =>
    if k' = k then (k, v) :: rest else (k', v') :: setKey rest k v

/-- Python `(d.get(k) or "")` followed by the string operations the
scripts apply: yields the string when the value is a string, and `""`
when the value is `None` or the key is absent (the scripts only reach
the string operations for string-or-absent fields). -/
def getStrD (m : Contact) (k : String) : String :=
  match lookupKey m k with
  | some (vStr s) => s
  | _ => ""

/-- Integer field access (`d[k]` for the integer `ID` field; the data
model guarantees presence, absent defaults to 0 in the embedding). -/
def getIntD (m : Contact) (k : String) : Int :=
  match lookupKey m k with
  | some (vInt n) => n
  | _ => 0

/-- The integer ids in a contact's `Relations` list. -/
def relationIds (m : Contact) : List Int :=
  match lookupKey m "Relations" with
  | some (Value.vList l) =>
    l.filterMap (fun p => match p with | Prim.pInt n => some n | _ => none)
  | _ => []

/-! ## Field merge engine (`_merge_contact_data`, lines 204-251) -/

/-- The excluded computed fields of `_merge_contact_data`
(lines 216-220). -/
def excludedFields : List String :=
  ["Contact", "Record ID", "ID", "Full Name", "First and Last",
   "Middle Initial", "Addresses", "Communications", "Own", "Foreclosures",
   "Auction (from Foreclosures)", "Claims", "Loans"]

/-- The mergeable fields of `_merge_contact_data` (lines 228-232). -/
def mergeFieldNames : List String :=
  ["First Name", "Last Name", "Middle Name", "Suffix", "Age",
   "Phone", "Email", "Relation to Owner", "Company Name", "Maiden Name",
   "Deceased", "Bankruptcy", "Sex", "Birth Year", "DOB", "In Jail"]

/-- The initial merged dictionary of `_merge_contact_data`
(lines 209-213). -/
def initialMerged : Contact :=
  [("IDI", vBool true), ("Traced", vBool true), ("Entity Type", vStr "Person")]

/-- The copy loop of `_merge_contact_data` (lines 222-224): copy every
existing non-excluded field into the merged dictionary. -/
def copyExisting (m : Contact) (exFields : Contact) : Contact :=
  exFields.foldl
    (fun acc p => if p.1 ∈ excludedFields then acc else setKey acc p.1 p.2) m

/-- Per-field formatting applied when a new value is taken (lines
241-244): `Phone` goes through `format_phone_number`, everything else
through `clean_and_format_text` with `_get_field_type`.  (Python would
raise on a non-string phone; phones are strings in the data model.) -/
def formatForField (f : String) (v : Value) : Value :=
  if f = "Phone" then
    match v with
    | vStr s => vStr (formatPhoneNumber s)
    | w => w
  else cleanAndFormatText v (getFieldType f)

/-- One iteration of the merge loop of `_merge_contact_data`
(lines 234-249): take the formatted new value when the existing value is
truly empty and the new value is truthy; otherwise re-assert a truthy
existing value; otherwise leave the merged dictionary unchanged. -/
def mergeOne (exFields : Contact) (newC : Contact) (m : Contact) (f : String) : Contact :=
  let newV := fieldD newC f
  let exV := fieldD exFields f
  if isFieldEmpty exV && truthy newV then setKey m f (formatForField f newV)
  else if truthy exV then setKey m f exV
  else m

/-- Model of `_merge_contact_data` (lines 204-251): the initialized
dictionary, then the copy loop, then the merge loop over
`mergeFieldNames`. -/
def mergeContactData (newC : Contact) (exFields : Contact) : Contact :=
  mergeFieldNames.foldl (mergeOne exFields newC) (copyExisting initialMerged exFields)

/-- Existing-record dictionary holding one optional field, used to state
the per-field merge theorems. -/
def exList (o : Option Value) (f : String) : Contact :=
  match o with
  | some v => [(f, v)]
  | none => []

example :
    lookupKey (mergeContactData [("Phone", vStr "5551234567")] []) "Phone" =
      some (vStr "(555) 123-4567") := by decide
example :
    lookupKey (mergeContactData [("Deceased", vBool false)]
      [("Deceased", vBool true)]) "Deceased" = some (vBool true) := by decide

/-! ## Identity matcher (`find_existing_contact`, `_search_contacts_by_name`,
`_is_same_person`, lines 142-202) -/

/-- An Airtable record: an opaque external id plus a field dictionary
(Python `record["id"]`, `record.get("fields", some dict)`). -/
structure Rec where
  id : String
  fields : Contact
deriving DecidableEq, Repr

/-- Model of `_search_contacts_by_name` (lines 161-185) relative to the
repository's answer: the records on success, and the empty list when the
request raises (the `except` branch returns `[]`). -/
def searchContactsByName (outcome : Except Unit (List Rec)) : List Rec :=
  match outcome with
  | Except.ok recs => recs
  | Except.error _ => []

/-- Model of `_is_same_person` (lines 187-202): different people only
when both ages are truthy (present and non-zero) and differ by more
than 5; any other combination is the same person.  (Non-numeric truthy
ages would raise in Python; ages are integers in the data model, and the
absolute difference of a non-numeric pair is taken as 0.) -/
def isSamePerson (newC : Contact) (ex : Rec) : Bool :=
  let newAge := fieldD newC "Age"
  let exAge := fieldD ex.fields "Age"
  let diff : Nat :=
    match newAge, exAge with
    | vInt a, vInt b => (a - b).natAbs
    | _, _ => 0
  !(truthy newAge && truthy exAge && 5 < diff)

/-- Model of `find_existing_contact` (lines 142-159): empty stripped
first or last name returns `none` without querying; otherwise the first
search result judged the same person wins (`None` when no match). -/
def findExistingContact (c : Contact) (outcome : Except Unit (List Rec)) : Option Rec :=
  let firstName := pyStrip (getStrD c "First Name")
  let lastName := pyStrip (getStrD c "Last Name")
  if firstName = "" ∨ lastName = "" then none
  else (searchContactsByName outcome).find? (fun r => isSamePerson c r)

/-- Age of a contact as the claims state it: a present integer or
nothing. -/
def ageInt (m : Contact) : Option Int :=
  match lookupKey m "Age" with
  | some (vInt n) => some n
  | _ => none

/-- The claim's age-incompatibility rule, stated from the specification
text: both sides have a present, non-zero age and the absolute
difference exceeds 5. -/
def specRuledOutByAge (c : Contact) (r : Rec) : Bool :=
  match ageInt c, ageInt r.fields with
  | some a, some b => a ≠ 0 && b ≠ 0 && 5 < (a - b).natAbs
  | _, _ => false

/-! ## Contact creation and update (`update_or_create_contact`,
lines 421-566) -/

/-- A contact-level repository mutation issued by
`update_or_create_contact`: a `POST` creating a contact or a `PATCH` of
an existing record.  (Property sub-record creation goes to a different
table and is not a contact create/update.) -/
inductive ContactCall where
  | createContact : ContactCall
  | updateContact : String → ContactCall
deriving DecidableEq, Repr

/-- Model of `update_or_create_contact` (lines 421-566) at the
granularity the error-handling claims need: the result external id
(`none` when the contact was skipped or the repository call raised) and
the contact create/update calls issued.  `searchRes` is the repository's
answer to the name search, `createRes` the outcome of the `POST`,
`updateRes` the outcome of the `PATCH`.  Field preparation, property
creation and foreclosure copying change no contact create/update
decision and are elided. -/
def updateOrCreateContact (c : Contact) (searchRes : Except Unit (List Rec))
    (createRes : Except Unit String) (updateRes : Except Unit Unit) :
    Option String × List ContactCall :=
  let firstName := getStrD c "First Name"
  let lastName := getStrD c "Last Name"
  if firstName = "" ∧ lastName = "" then (none, [])
  else
    match findExistingContact c searchRes with
    | some ex =>
      match updateRes with
      | Except.ok _ => (some ex.id, [ContactCall.updateContact ex.id])
      | Except.error _ => (none, [ContactCall.updateContact ex.id])
    | none =>
      match createRes with
      | Except.ok rid => (some rid, [ContactCall.createContact])
      | Except.error _ => (none, [ContactCall.createContact])

/-- Pass 1 of `test_5_contacts` (lines 175-205): process each contact in
order and record `ID → external id` for each success; a failed contact
adds no mapping entry and the loop continues with the next contact. -/
def passOne
    (items : List (Contact × Except Unit (List Rec) × Except Unit String × Except Unit Unit)) :
    List (Int × String) :=
  items.filterMap (fun it =>
    match (updateOrCreateContact it.1 it.2.1 it.2.2.1 it.2.2.2).1 with
    | some rid => some (getIntD it.1 "ID", rid)
    | none => none)

/-! ## Deduplicator (`deduplicate_contacts`, `test_3_contacts.py`
lines 10-82) -/

/-- The comparison key of `deduplicate_contacts` (lines 16-23):
stripped, lower-cased first and last name joined by `|`. -/
def dedupKey (c : Contact) : String :=
  pyLower (pyStrip (getStrD c "First Name")) ++ "|" ++
    pyLower (pyStrip (getStrD c "Last Name"))

/-- Stripped suffix of a contact (line 19). -/
def suffixOf (c : Contact) : String := pyStrip (getStrD c "Suffix")

/-- The age-difference test of `deduplicate_contacts` (line 40): both
ages truthy and more than `t` apart.  As in `isSamePerson`, non-numeric
ages are outside the data model and never conflict. -/
def ageConflict (a b : Value) (t : Nat) : Bool :=
  let diff : Nat :=
    match a, b with
    | vInt x, vInt y => (x - y).natAbs
    | _, _ => 0
  truthy a && truthy b && t < diff

/-- Whether a contact's `Relation to Owner`, stripped and lower-cased,
equals `owner` (lines 49-50). -/
def isOwnerRec (c : Contact) : Bool :=
  pyLower (pyStrip (getStrD c "Relation to Owner")) = "owner"

/-- The field count of the completeness tie-break (lines 64-65):
`sum(1 for v in contact.values() if v and v != '')`, which counts the
truthy values (a falsy value never equals a non-empty string and the
empty string is falsy). -/
def countTruthyFields (c : Contact) : Nat :=
  (c.map Prod.snd).countP truthy

/-- Python's `for i, ... in enumerate(deduplicated): if stored_contact ==
existing_contact: deduplicated[i] = repl; break` (lines 55-58, 70-73):
replace the first pair whose contact equals the target. -/
def replaceFirst : List (Contact × Nat) → Contact → (Contact × Nat) → List (Contact × Nat)
  | [], _, _ => []
  | (c, d) :: rest, target, repl =>
    if c = target then repl :: rest else (c, d) :: replaceFirst rest target repl

/-- State of the dedup loop: the `seen_contacts` dictionary keyed by
name key, and the `deduplicated` output list. -/
def DedupState : Type := List (String × (Contact × Nat)) × List (Contact × Nat)

/-- Lookup in `seen_contacts`. -/
def lookupSeen (seen : List (String × (Contact × Nat))) (k : String) :
    Option (Contact × Nat) :=
  (seen.find? (fun p => p.1 = k)).map Prod.snd

/-- Assignment `seen_contacts[key] = entry`. -/
def setSeen : List (String × (Contact × Nat)) → String → (Contact × Nat) →
    List (String × (Contact × Nat))
  | [], k, v => [(k, v)]
  | (k', v') :: rest, k, v =>
    if k' = k then (k, v) :: rest else (k', v') :: setSeen rest k v

/-- One iteration of `deduplicate_contacts` (lines 15-80): a fresh key
is recorded and appended; a repeated key keeps both on a suffix or age
conflict, otherwise collapses the pair, preferring the owner record and
then the record with more truthy fields (ties keep the earlier one). -/
def dedupStep (st : DedupState) (item : Contact × Nat) : DedupState :=
  let seen := st.1
  let ded := st.2
  let c := item.1
  let depth := item.2
  let key := dedupKey c
  match lookupSeen seen key with
  | none => (setSeen seen key (c, depth), ded ++ [(c, depth)])
  | some ex =>
    let exC := ex.1
    if suffixOf c ≠ "" ∧ suffixOf exC ≠ "" ∧
        pyLower (suffixOf c) ≠ pyLower (suffixOf exC) then
      (seen, ded ++ [(c, depth)])
    else if ageConflict (fieldD c "Age") (fieldD exC "Age") 2 then
      (seen, ded ++ [(c, depth)])
    else if isOwnerRec c ∧ ¬isOwnerRec exC then
      (setSeen seen key (c, depth), replaceFirst ded exC (c, depth))
    else if isOwnerRec exC ∧ ¬isOwnerRec c then
      (seen, ded)
    else if countTruthyFields exC < countTruthyFields c then
      (setSeen seen key (c, depth), replaceFirst ded exC (c, depth))
    else (seen, ded)

/-- Model of `deduplicate_contacts` (lines 10-82). -/
def deduplicateContacts (items : List (Contact × Nat)) : List (Contact × Nat) :=
  (items.foldl dedupStep ([], [])).2

/-! ## Relationship propagator (`update_bidirectional_relations`,
lines 293-324) -/

/-- Lookup in the internal-id to external-id mapping
(`contact_id_mapping`). -/
def lookupMapping (mapping : List (Int × String)) (i : Int) : Option String :=
  (mapping.find? (fun p => p.1 = i)).map Prod.snd

/-- Model of `update_bidirectional_relations` (lines 293-324) as the
list of `PATCH` calls issued: for each contact whose `ID` is in the
mapping and whose `Relations` is truthy, translate the relation ids
present in the mapping and, when the translated list is non-empty,
issue a `PATCH` setting that contact's `Relations` to it. -/
def updateBidirectionalRelations (contacts : List (Contact × Nat))
    (mapping : List (Int × String)) : List (String × List String) :=
  contacts.foldl
    (fun calls item =>
      let c := item.1
      match lookupMapping mapping (getIntD c "ID") with
      | none => calls
      | some recId =>
        if truthy (fieldD c "Relations") then
          let relIds := (relationIds c).filterMap (lookupMapping mapping)
          if relIds = [] then calls else calls ++ [(recId, relIds)]
        else calls)
    []

/-! ## Relation graph builder (`add_contact_and_relations`,
`test_3_contacts.py` lines 129-145) -/

/-- The contact population, `contact_by_id` (line 101). -/
def Population : Type := List (Int × Contact)

/-- Lookup `contact_by_id[relation_id]` (line 144). -/
def lookupPop (pop : Population) (i : Int) : Option Contact :=
  (pop.find? (fun p => p.1 = i)).map Prod.snd

/-- Traversal state: `processed_ids` and `contacts_to_process`
(lines 126-127). -/
structure TravState where
  processed : List Int
  out : List (Contact × Nat)
deriving DecidableEq, Repr

/-- Model of `add_contact_and_relations` (lines 129-145) with an
explicit fuel counting the Python call-stack frames; `none` means the
recursion limit was hit (shown unreachable for fuel at least
`maxDepth + 2` by the termination theorem).  A visited contact or one
past the depth bound returns the state unchanged; otherwise the contact
is recorded and its relations that resolve in the population are
followed at the next depth. -/
def addContactFuel (pop : Population) (maxDepth : Nat) :
    Nat → Contact → Nat → TravState → Option TravState
  | 0, _, _, _ => none
  | fuel + 1, c, depth, st =>
    if getIntD c "ID" ∈ st.processed ∨ maxDepth < depth then some st
    else
      (relationIds c).foldl
        (fun ost r =>
          ost.bind (fun st' =>
            match lookupPop pop r with
            | some next => addContactFuel pop maxDepth fuel next (depth + 1) st'
            | none => some st'))
        (some ⟨st.processed ++ [getIntD c "ID"], st.out ++ [(c, depth)]⟩)

/-- The seed loop (lines 152-154): run the traversal from each seed at
depth 0, threading the shared state. -/
def addSeedsFuel (pop : Population) (maxDepth : Nat) (fuel : Nat) :
    List Contact → TravState → Option TravState
  | [], st => some st
  | c :: cs, st =>
    match addContactFuel pop maxDepth fuel c 0 st with
    | some st' => addSeedsFuel pop maxDepth fuel cs st'
    | none => none

/-! ## Named example inputs used by the claim theorems -/

/-- Contact A of the graph-builder test: internal id 1, related to 2. -/
def graphA : Contact := [("ID", vInt 1), ("Relations", Value.vList [Prim.pInt 2])]

/-- Contact B of the graph-builder test: internal id 2, related to 1 and 3. -/
def graphB : Contact := [("ID", vInt 2), ("Relations", Value.vList [Prim.pInt 1, Prim.pInt 3])]

/-- Contact C of the graph-builder test: internal id 3, related to 2. -/
def graphC : Contact := [("ID", vInt 3), ("Relations", Value.vList [Prim.pInt 2])]

/-- The population of the graph-builder test. -/
def graphPop : Population := [(1, graphA), (2, graphB), (3, graphC)]

/-- A contact that relates to its partner and to itself (cycle). -/
def cycA : Contact := [("ID", vInt 7), ("Relations", Value.vList [Prim.pInt 8, Prim.pInt 7])]

/-- A contact relating back to its partner (mutual cycle). -/
def cycB : Contact := [("ID", vInt 8), ("Relations", Value.vList [Prim.pInt 7])]

/-- A two-contact population with mutual and self-referencing links. -/
def cycPop : Population := [(7, cycA), (8, cycB)]

/-- Propagation example: contact X (internal id 1) lists Y (id 2) in its
`Relations`. -/
def bidirX : Contact := [("ID", vInt 1), ("Relations", Value.vList [Prim.pInt 2])]

/-- Propagation example: contact Y (internal id 2) lists nobody. -/
def bidirY : Contact := [("ID", vInt 2), ("Relations", Value.vList [])]

/-- A contact with no name fields at all. -/
def namelessA : Contact := []

/-- A second contact with no name fields (one truthy non-name field). -/
def namelessB : Contact := [("Phone", vStr "555")]

/-- Owner record of the deduplication example. -/
def ownerRec : Contact :=
  [("First Name", vStr "Jane"), ("Last Name", vStr "Doe"),
   ("Age", vInt 40), ("Relation to Owner", vStr "Owner")]

/-- Spouse record of the deduplication example (same name, age 41). -/
def spouseRec : Contact :=
  [("First Name", vStr "Jane"), ("Last Name", vStr "Doe"),
   ("Age", vInt 41), ("Relation to Owner", vStr "Spouse")]

/-- Matching candidate with age 40. -/
def matchCand : Contact :=
  [("First Name", vStr "John"), ("Last Name", vStr "Smith"), ("Age", vInt 40)]

/-- A search result whose age 50 is incompatible with age 40. -/
def matchFar : Rec := ⟨"recFar", [("Age", vInt 50)]⟩

/-- A search result whose age 42 is compatible with age 40. -/
def matchNear : Rec := ⟨"recNear", [("Age", vInt 42)]⟩

/-- A candidate whose name fields are whitespace only. -/
def blankNameC : Contact := [("First Name", vStr "  "), ("Last Name", vStr " ")]

/-- An arbitrary repository record. -/
def someRec : Rec := ⟨"recAny", [("First Name", vStr "Ann")]⟩

/-! ## Helper lemmas about association lists and the merge loop -/

theorem lookupKey_setKey_self (m : Contact) (k : String) (v : Value) :
    lookupKey (setKey m k v) k = some v := by
  induction m with
  | nil => simp [setKey, lookupKey, List.find?]
  | cons p rest ih =>
    by_cases h : p.1 = k
    · simp [setKey, h, lookupKey, List.find?]
    · simp [setKey, h, lookupKey, List.find?] at ih ⊢
      exact ih

theorem lookupKey_setKey_ne (m : Contact) (k k' : String) (v : Value) (h : k' ≠ k) :
    lookupKey (setKey m k v) k' = lookupKey m k' := by
  have h2 : ¬(k = k') := fun a => h a.symm
  induction m with
  | nil => simp [setKey, lookupKey, List.find?, h2]
  | cons p rest ih =>
    obtain ⟨a, b⟩ := p
    by_cases ha : a = k
    · have ha' : ¬(a = k') := by rw [ha]; exact h2
      simp [setKey, ha, lookupKey, List.find?, h2, ha']
    · by_cases ha' : a = k'
      · simp [setKey, ha, lookupKey, List.find?, ha', h]
      · simp [setKey, ha, lookupKey, List.find?, ha'] at ih ⊢
        exact ih

theorem mergeOne_noop (ex newC m : Contact) (g : String)
    (h1 : fieldD newC g = vNone) (h2 : fieldD ex g = vNone) :
    mergeOne ex newC m g = m := by
  simp [mergeOne, h1, h2, truthy, isFieldEmpty, vNone]

theorem foldl_mergeOne_noop (ex newC m : Contact) (fs : List String)
    (h : ∀ g ∈ fs, fieldD newC g = vNone ∧ fieldD ex g = vNone) :
    fs.foldl (mergeOne ex newC) m = m := by
  induction fs generalizing m with
  | nil => rfl
  | cons g rest ih =>
    have hg := h g (by simp)
    rw [List.foldl_cons, mergeOne_noop ex newC m g hg.1 hg.2]
    exact ih m (fun g' hg' => h g' (by simp [hg']))

theorem fieldD_single_ne (f g : String) (v : Value) (h : g ≠ f) :
    fieldD [(f, v)] g = vNone := by
  have h2 : ¬(f = g) := fun a => h a.symm
  simp [fieldD, lookupKey, List.find?, h2]

theorem fieldD_exList_ne (o : Option Value) (f g : String) (h : g ≠ f) :
    fieldD (exList o f) g = vNone := by
  cases o with
  | none => rfl
  | some v => exact fieldD_single_ne f g v h

theorem fieldD_exList_self (o : Option Value) (f : String) :
    fieldD (exList o f) f = o.getD vNone := by
  cases o with
  | none => rfl
  | some v => simp [exList, fieldD, lookupKey, List.find?]

theorem fieldD_single_self (f : String) (v : Value) : fieldD [(f, v)] f = v := by
  simp [fieldD, lookupKey, List.find?]

theorem isFieldEmpty_vNone : isFieldEmpty vNone = true := rfl

theorem truthy_vNone : truthy vNone = false := rfl

theorem lookupKey_merge_single (f : String) (hf : f ∈ mergeFieldNames)
    (exO : Option Value) (nv : Value) :
    lookupKey (mergeContactData [(f, nv)] (exList exO f)) f =
      if isFieldEmpty (exO.getD vNone) && truthy nv then some (formatForField f nv)
      else exO := by
  have hprops : ∀ g ∈ mergeFieldNames, g ∉ excludedFields ∧
      lookupKey initialMerged g = Option.none := by decide
  obtain ⟨hfe, hfi⟩ := hprops f hf
  obtain ⟨s, t, hst⟩ := List.append_of_mem hf
  have hnd : mergeFieldNames.Nodup := by decide
  rw [hst] at hnd
  rw [List.nodup_append] at hnd
  have hfs : f ∉ s := fun hm => hnd.2.2 hm (List.mem_cons_self f t)
  have hft : f ∉ t := (List.nodup_cons.mp hnd.2.1).1
  have hnoopS : ∀ g ∈ s, fieldD [(f, nv)] g = vNone ∧ fieldD (exList exO f) g = vNone :=
    fun g hg => ⟨fieldD_single_ne f g nv (fun e => hfs (e ▸ hg)),
      fieldD_exList_ne exO f g (fun e => hfs (e ▸ hg))⟩
  have hnoopT : ∀ g ∈ t, fieldD [(f, nv)] g = vNone ∧ fieldD (exList exO f) g = vNone :=
    fun g hg => ⟨fieldD_single_ne f g nv (fun e => hft (e ▸ hg)),
      fieldD_exList_ne exO f g (fun e => hft (e ▸ hg))⟩
  unfold mergeContactData
  rw [hst, List.foldl_append, List.foldl_cons,
    foldl_mergeOne_noop (exList exO f) [(f, nv)] _ s hnoopS,
    foldl_mergeOne_noop (exList exO f) [(f, nv)] _ t hnoopT]
  simp only [mergeOne, fieldD_single_self, fieldD_exList_self]
  rcases exO with _ | v
  · have hm0 : copyExisting initialMerged (exList Option.none f) = initialMerged := rfl
    rw [hm0]
    cases hnv : truthy nv
    · simp [hnv, isFieldEmpty_vNone, truthy_vNone, hfi]
    · simp [hnv, isFieldEmpty_vNone, truthy_vNone, lookupKey_setKey_self]
  · have hm0 : copyExisting initialMerged (exList (some v) f) = setKey initialMerged f v := by
      simp [copyExisting, exList, hfe]
    rw [hm0]
    cases he : isFieldEmpty v <;> cases hnv : truthy nv <;> cases htv : truthy v <;>
      simp [he, hnv, htv, lookupKey_setKey_self]

/-- Claim C1: the specification demands symmetric relationship
propagation, but `update_bidirectional_relations` only writes each
contact's own forward relation list.  With mapping 1 to extA and 2 to
extB, contact 1 relating to 2 and contact 2 relating to nobody, the
only update issued is a `PATCH` of extA with relations containing extB;
no call updates extB at all, so extB's persisted relations never gain
extA, contradicting the claimed symmetry. -/
theorem claim_C1_failing_eval :
    updateBidirectionalRelations [(bidirX, 0), (bidirY, 0)] [(1, "extA"), (2, "extB")] =
      [("extA", ["extB"])] ∧
    (updateBidirectionalRelations [(bidirX, 0), (bidirY, 0)] [(1, "extA"), (2, "extB")]).all
      (fun call => call.1 ≠ "extB") = true := by decide

/-- Claim C2 counterexample: when the repository rejects the search call
(`Except.error`), `update_or_create_contact` does not skip the contact —
the swallowed search failure makes the candidate look unmatched, so a
create is issued and the contact is processed, contradicting the claim
that no create or update is issued for it. -/
theorem claim_C2_counterexample :
    updateOrCreateContact [("First Name", vStr "John"), ("Last Name", vStr "Doe")]
        (Except.error ()) (Except.ok "recNew") (Except.ok ()) =
      (some "recNew", [ContactCall.createContact]) := by decide

/-- Claim C2 (amended): a rejected search is swallowed and treated as
"no matches", so a named candidate proceeds as a new contact and exactly
one create call is issued for it; only a rejected create leaves the
contact unprocessed (no external id), and a contact that yields no
external id contributes nothing to the pass-1 mapping while the batch
continues with the remaining contacts. -/
theorem claim_C2_amended :
    (∀ (c : Contact) (createRes : Except Unit String) (updateRes : Except Unit Unit),
        ¬(getStrD c "First Name" = "" ∧ getStrD c "Last Name" = "") →
        (updateOrCreateContact c (Except.error ()) createRes updateRes).2 =
          [ContactCall.createContact]) ∧
    (∀ (c : Contact) (updateRes : Except Unit Unit),
        (updateOrCreateContact c (Except.error ()) (Except.error ()) updateRes).1 =
          Option.none) ∧
    (∀ (item : Contact × Except Unit (List Rec) × Except Unit String × Except Unit Unit)
        (rest : List (Contact × Except Unit (List Rec) × Except Unit String × Except Unit Unit)),
        (updateOrCreateContact item.1 item.2.1 item.2.2.1 item.2.2.2).1 = Option.none →
        passOne (item :: rest) = passOne rest) := by
  have hfind : ∀ c : Contact, findExistingContact c (Except.error ()) = Option.none := by
    intro c
    simp [findExistingContact, searchContactsByName, List.find?]
  refine ⟨?_, ?_, ?_⟩
  · intro c cr ur h
    simp only [updateOrCreateContact, if_neg h, hfind]
    cases cr <;> rfl
  · intro c ur
    simp only [updateOrCreateContact, hfind]
    split
    · rfl
    · rfl
  · intro item rest h
    simp [passOne, List.filterMap_cons, h]

/-- Claim C3 counterexample: with existing `Deceased = True` and
incoming `Deceased = False`, the merge keeps the existing `True` (the
`_merge_contact_data` preserve-existing rule applies to booleans too),
whereas the claim requires the merged value to equal the incoming
`False`. -/
theorem claim_C3_counterexample :
    lookupKey (mergeContactData [("Deceased", vBool false)] [("Deceased", vBool true)])
        "Deceased" = some (vBool true) ∧
    (some (vBool true) : Option Value) ≠ some (vBool false) := by decide

/-- Claim C3 (amended): the merged `Deceased` and `Bankruptcy` fields
follow the same preserve-existing rule as every other mergeable field:
the incoming boolean is written exactly when the existing value is
empty (absent, `None` or `False`) and the incoming value is `True`;
otherwise the existing value (or its absence) is preserved. -/
theorem claim_C3_amended :
    ∀ (exO : Option Bool) (nv : Bool),
      (lookupKey (mergeContactData [("Deceased", vBool nv)]
          (exList (exO.map vBool) "Deceased")) "Deceased" =
        if isFieldEmpty ((exO.map vBool).getD vNone) && nv then some (vBool true)
        else exO.map vBool) ∧
      (lookupKey (mergeContactData [("Bankruptcy", vBool nv)]
          (exList (exO.map vBool) "Bankruptcy")) "Bankruptcy" =
        if isFieldEmpty ((exO.map vBool).getD vNone) && nv then some (vBool true)
        else exO.map vBool) := by decide

/-- Claim C4 counterexample: with existing `Phone` absent (empty) and
new `Phone` equal to the blank string `" "` — a blank string, hence
empty under the claim's own definition, so its "otherwise keep the
existing value" branch applies — the merge nevertheless writes the
blank new value, because the code tests Python truthiness of the new
value and a whitespace-only string is truthy. -/
theorem claim_C4_counterexample :
    isFieldEmpty (vStr " ") = true ∧
    lookupKey (exList Option.none "Phone") "Phone" = Option.none ∧
    lookupKey (mergeContactData [("Phone", vStr " ")] (exList Option.none "Phone"))
        "Phone" = some (vStr " ") := by decide

/-- Claim C4 (amended): for every mergeable field, the merge produces
the type-formatted new value exactly when the existing value is empty
(`None`, whitespace-only string, numeric zero, or absent) and the new
value is Python-truthy (a whitespace-only string counts as present);
otherwise the existing value — or its absence — is kept unchanged.  In
particular existing `Phone = None` with new `Phone = "5551234567"`
merges to `"(555) 123-4567"`, and an existing `Phone = "(555) 999-0000"`
is preserved. -/
theorem claim_C4_amended :
    (∀ f ∈ mergeFieldNames, ∀ (exO : Option Value) (nv : Value),
        lookupKey (mergeContactData [(f, nv)] (exList exO f)) f =
          if isFieldEmpty (exO.getD vNone) && truthy nv then some (formatForField f nv)
          else exO) ∧
    lookupKey (mergeContactData [("Phone", vStr "5551234567")] (exList (some vNone) "Phone"))
        "Phone" = some (vStr "(555) 123-4567") ∧
    lookupKey (mergeContactData [("Phone", vStr "5551234567")]
        [("Phone", vStr "(555) 999-0000")]) "Phone" = some (vStr "(555) 999-0000") :=
  ⟨fun f hf exO nv => lookupKey_merge_single f hf exO nv, by decide, by decide⟩

/-- Witness for claim C4 (amended): applying the per-field rule to the
`Email` field with an absent existing value and an upper-case incoming
address yields the lower-cased formatted value. -/
theorem claim_C4_amended_witness :
    lookupKey (mergeContactData [("Email", vStr "ANN@X.COM")] (exList Option.none "Email"))
        "Email" = some (vStr "ann@x.com") := by
  have h := claim_C4_amended.1 "Email" (by decide) Option.none (vStr "ANN@X.COM")
  rw [h]
  decide

/-- Claim C5 counterexample: two contacts with both names empty share
the dedup key `"|"`, and with no suffixes and no ages the deduplicator
collapses them to one record (the one with more truthy fields), so the
deduplicator does not treat empty-named contacts as always distinct. -/
theorem claim_C5_counterexample :
    getStrD namelessA "First Name" = "" ∧ getStrD namelessA "Last Name" = "" ∧
    getStrD namelessB "First Name" = "" ∧ getStrD namelessB "Last Name" = "" ∧
    deduplicateContacts [(namelessA, 0), (namelessB, 0)] = [(namelessB, 0)] := by decide

/-- Claim C5 (amended): the identity matcher returns `none` (without
any create/update decision) for a candidate whose stripped first and
last names are empty; the deduplicator, however, keys both-names-empty
contacts identically and can collapse two of them into one. -/
theorem claim_C5_amended :
    (∀ (c : Contact) (outcome : Except Unit (List Rec)),
        pyStrip (getStrD c "First Name") = "" →
        pyStrip (getStrD c "Last Name") = "" →
        findExistingContact c outcome = Option.none) ∧
    (deduplicateContacts [(namelessA, 0), (namelessB, 0)]).length = 1 := by
  refine ⟨?_, by decide⟩
  intro c outcome h1 h2
  simp [findExistingContact, h1]

/-- Witness for claim C5 (amended): a candidate with whitespace-only
names is rejected by the matcher even when the repository holds a
record. -/
theorem claim_C5_amended_witness :
    findExistingContact blankNameC (Except.ok [someRec]) = Option.none :=
  claim_C5_amended.1 blankNameC (Except.ok [someRec]) (by decide) (by decide)

/-- Claim C8: on seed A with A related to B, B related to A and C, C
related to B, and maximum depth 1, the builder outputs exactly
[(A, 0), (B, 1)]: C, discovered only at depth 2, is cut off by the
depth bound, and A, though listed again in B's relations, is never
re-queued (fuel 3 = maxDepth + 2 suffices by the termination theorem). -/
theorem claim_C8_graph_builder :
    addSeedsFuel graphPop 1 3 [graphA] ⟨[], []⟩ =
      some ⟨[1, 2], [(graphA, 0), (graphB, 1)]⟩ := by decide

theorem isSamePerson_eq_not_spec (c : Contact) (r : Rec) :
    isSamePerson c r = !specRuledOutByAge c r := by
  have e1 : fieldD c "Age" = (lookupKey c "Age").getD vNone := rfl
  have e2 : fieldD r.fields "Age" = (lookupKey r.fields "Age").getD vNone := rfl
  rcases h1 : lookupKey c "Age" with _ | v1 <;>
    rcases h2 : lookupKey r.fields "Age" with _ | v2 <;>
    simp only [isSamePerson, specRuledOutByAge, ageInt, e1, e2, h1, h2, Option.getD]
  · decide
  · rcases v2 with ⟨_ | _ | _ | _⟩ | _ <;> simp [truthy]
  · rcases v1 with ⟨_ | _ | _ | _⟩ | _ <;> simp [truthy]
  · rcases v1 with ⟨_ | s1 | n1 | b1⟩ | l1 <;> rcases v2 with ⟨_ | s2 | n2 | b2⟩ | l2 <;>
      simp [truthy]

/-- Claim C6: with non-empty stripped names, the matcher returns the
first repository record not ruled out by age-incompatibility, where a
record is ruled out exactly when both sides carry a present non-zero
age differing by more than 5 (so a missing age on either side means the
pair is compatible and the match succeeds). -/
theorem claim_C6_matcher (c : Contact) (recs : List Rec)
    (h1 : pyStrip (getStrD c "First Name") ≠ "")
    (h2 : pyStrip (getStrD c "Last Name") ≠ "") :
    findExistingContact c (Except.ok recs) =
      recs.find? (fun r => !specRuledOutByAge c r) ∧
    ∀ r : Rec, isSamePerson c r = !specRuledOutByAge c r := by
  constructor
  · simp only [findExistingContact, searchContactsByName]
    rw [if_neg (not_or.mpr ⟨h1, h2⟩)]
    simp only [isSamePerson_eq_not_spec]
  · exact isSamePerson_eq_not_spec c

/-- Witness for claim C6: candidate age 40 against records aged 50
(ruled out, difference 10) then 42 (compatible): the second record is
returned, skipping the first. -/
theorem claim_C6_matcher_witness :
    findExistingContact matchCand (Except.ok [matchFar, matchNear]) = some matchNear := by
  have h := claim_C6_matcher matchCand [matchFar, matchNear] (by decide) (by decide)
  rw [h.1]
  decide

/-- Claim C7: two contacts sharing a dedup key, with empty suffixes and
present ages at most 2 apart, where exactly one has `Relation to Owner`
equal (case-insensitively) to `owner`: exactly one record survives
deduplication, and it is the owner record. -/
theorem claim_C7_dedup_owner (c1 c2 : Contact) (d1 d2 : Nat) (a1 a2 : Int)
    (hkey : dedupKey c2 = dedupKey c1)
    (hs1 : suffixOf c1 = "") (hs2 : suffixOf c2 = "")
    (ha1 : fieldD c1 "Age" = vInt a1) (ha2 : fieldD c2 "Age" = vInt a2)
    (hdiff : (a2 - a1).natAbs ≤ 2)
    (hown : isOwnerRec c1 ≠ isOwnerRec c2) :
    deduplicateContacts [(c1, d1), (c2, d2)] =
      [if isOwnerRec c1 then (c1, d1) else (c2, d2)] := by
  unfold deduplicateContacts
  rw [List.foldl_cons, List.foldl_cons, List.foldl_nil]
  have st1 : dedupStep ([], []) (c1, d1) = ([(dedupKey c1, (c1, d1))], [(c1, d1)]) := by
    simp [dedupStep, lookupSeen, List.find?, setSeen]
  rw [st1]
  have hfind : lookupSeen [(dedupKey c1, (c1, d1))] (dedupKey c2) = some (c1, d1) := by
    simp [lookupSeen, List.find?, hkey]
  have hage : ageConflict (fieldD c2 "Age") (fieldD c1 "Age") 2 = false := by
    rw [ha1, ha2]
    simp [ageConflict, truthy]
    omega
  simp only [dedupStep, hfind]
  rw [if_neg (by simp [hs2])]
  rw [if_neg (by simp [hage])]
  cases hc1 : isOwnerRec c1
  · have hc2 : isOwnerRec c2 = true := by
      cases hc2 : isOwnerRec c2
      · rw [hc1, hc2] at hown
        exact absurd rfl hown
      · rfl
    rw [if_pos (by simp [hc1, hc2])]
    simp [replaceFirst]
  · have hc2 : isOwnerRec c2 = false := by
      cases hc2 : isOwnerRec c2
      · rfl
      · rw [hc1, hc2] at hown
        exact absurd rfl hown
    rw [if_neg (by simp [hc1])]
    rw [if_pos (by simp [hc1, hc2])]
    simp

/-- Witness for claim C7: the spouse record (age 41) appears first,
the owner record (age 40) second; the owner record is the sole
survivor. -/
theorem claim_C7_dedup_owner_witness :
    deduplicateContacts [(spouseRec, 0), (ownerRec, 1)] = [(ownerRec, 1)] := by
  have h := claim_C7_dedup_owner spouseRec ownerRec 0 1 41 40 (by decide) (by decide)
    (by decide) (by decide) (by decide) (by decide) (by decide)
  rw [h]
  decide

theorem foldl_rels_agree (pop : Population) (g1 g2 : Contact → TravState → Option TravState)
    (hg : ∀ c st, g1 c st = g2 c st ∧ (g1 c st).isSome = true) (rels : List Int) :
    ∀ st : TravState,
      rels.foldl (fun ost r => ost.bind (fun st' => match lookupPop pop r with
        | some next => g1 next st'
        | none => some st')) (some st) =
      rels.foldl (fun ost r => ost.bind (fun st' => match lookupPop pop r with
        | some next => g2 next st'
        | none => some st')) (some st) ∧
      (rels.foldl (fun ost r => ost.bind (fun st' => match lookupPop pop r with
        | some next => g1 next st'
        | none => some st')) (some st)).isSome = true := by
  induction rels with
  | nil => intro st; exact ⟨rfl, rfl⟩
  | cons r rs ih =>
    intro st
    rw [List.foldl_cons, List.foldl_cons]
    simp only [Option.some_bind]
    cases hl : lookupPop pop r with
    | none =>
      simp only [hl]
      exact ih st
    | some next =>
      simp only [hl]
      obtain ⟨heq, hsome⟩ := hg next st
      obtain ⟨st2, hst⟩ := Option.isSome_iff_exists.mp hsome
      rw [← heq, hst]
      exact ih st2

theorem addContactFuel_agree (pop : Population) (maxD : Nat) :
    ∀ (f1 f2 : Nat) (c : Contact) (depth : Nat) (st : TravState),
      1 ≤ f1 → 1 ≤ f2 → maxD + 1 < f1 + depth → maxD + 1 < f2 + depth →
      addContactFuel pop maxD f1 c depth st = addContactFuel pop maxD f2 c depth st ∧
      (addContactFuel pop maxD f1 c depth st).isSome = true := by
  intro f1
  induction f1 with
  | zero => intro f2 c depth st h1; exact absurd h1 (by omega)
  | succ n ih =>
    intro f2 c depth st h1 h2 hb1 hb2
    obtain ⟨m, rfl⟩ : ∃ m, f2 = m + 1 := ⟨f2 - 1, by omega⟩
    simp only [addContactFuel]
    by_cases hgd : getIntD c "ID" ∈ st.processed ∨ maxD < depth
    · rw [if_pos hgd, if_pos hgd]
      exact ⟨rfl, rfl⟩
    · rw [if_neg hgd, if_neg hgd]
      have hd : ¬(maxD < depth) := fun h => hgd (Or.inr h)
      have hstep : ∀ (c' : Contact) (st' : TravState),
          addContactFuel pop maxD n c' (depth + 1) st' =
            addContactFuel pop maxD m c' (depth + 1) st' ∧
          (addContactFuel pop maxD n c' (depth + 1) st').isSome = true :=
        fun c' st' => ih m c' (depth + 1) st' (by omega) (by omega) (by omega) (by omega)
      exact foldl_rels_agree pop _ _ hstep (relationIds c) _

theorem addSeedsFuel_agree (pop : Population) (maxD : Nat) (f1 f2 : Nat)
    (h1 : maxD + 2 ≤ f1) (h2 : maxD + 2 ≤ f2) :
    ∀ (seeds : List Contact) (st : TravState),
      addSeedsFuel pop maxD f1 seeds st = addSeedsFuel pop maxD f2 seeds st ∧
      (addSeedsFuel pop maxD f1 seeds st).isSome = true := by
  intro seeds
  induction seeds with
  | nil => intro st; exact ⟨rfl, rfl⟩
  | cons c cs ih =>
    intro st
    simp only [addSeedsFuel]
    obtain ⟨heq, hsome⟩ :=
      addContactFuel_agree pop maxD f1 f2 c 0 st (by omega) (by omega) (by omega) (by omega)
    obtain ⟨st2, hst⟩ := Option.isSome_iff_exists.mp hsome
    rw [hst] at heq
    rw [hst, ← heq]
    exact ih st2

/-- Claim C9: for every finite contact population and seed list — the
`Relations` adjacency may contain cycles, mutual links and
self-references — the depth-bounded traversal terminates: any fuel (call
stack) of at least `maxDepth + 2` frames yields a result, and always the
same one; the bound is independent of the population because the
visited set and the depth bound stop the recursion. -/
theorem claim_C9_termination (pop : Population) (maxDepth : Nat) (seeds : List Contact)
    (fuel : Nat) (hfuel : maxDepth + 2 ≤ fuel) :
    addSeedsFuel pop maxDepth fuel seeds ⟨[], []⟩ =
      addSeedsFuel pop maxDepth (maxDepth + 2) seeds ⟨[], []⟩ ∧
    (addSeedsFuel pop maxDepth fuel seeds ⟨[], []⟩).isSome = true :=
  addSeedsFuel_agree pop maxDepth fuel (maxDepth + 2) hfuel (by omega) seeds ⟨[], []⟩

/-- Witness for claim C9: the traversal of a cyclic two-contact
population (including a self-link) from a seed terminates with a
result at fuel 5. -/
theorem claim_C9_termination_witness :
    (addSeedsFuel cycPop 0 5 [cycA] ⟨[], []⟩).isSome = true :=
  (claim_C9_termination cycPop 0 [cycA] 5 (by omega)).2


theorem ptMc : pyTitleList false ("Mc" : String).data = ['M', 'c'] := rfl

theorem pdMc : ("Mc" : String).data = ['M', 'c'] := rfl

theorem ptMac : pyTitleList false ("Mac" : String).data = ['M', 'a', 'c'] := rfl

theorem pdMac : ("Mac" : String).data = ['M', 'a', 'c'] := rfl

theorem ptO : pyTitleList false ("O\x27" : String).data = ['O', '\x27'] := rfl

theorem pdO : ("O\x27" : String).data = ['O', '\x27'] := rfl

theorem ptDe : pyTitleList false ("De" : String).data = ['D', 'e'] := rfl

theorem pdDe : ("De" : String).data = ['D', 'e'] := rfl

theorem ptVan : pyTitleList false ("Van" : String).data = ['V', 'a', 'n'] := rfl

theorem pdVan : ("Van" : String).data = ['V', 'a', 'n'] := rfl

theorem ptVon : pyTitleList false ("Von" : String).data = ['V', 'o', 'n'] := rfl

theorem pdVon : ("Von" : String).data = ['V', 'o', 'n'] := rfl

theorem ptLa : pyTitleList false ("La" : String).data = ['L', 'a'] := rfl

theorem pdLa : ("La" : String).data = ['L', 'a'] := rfl

theorem ptLe : pyTitleList false ("Le" : String).data = ['L', 'e'] := rfl

theorem pdLe : ("Le" : String).data = ['L', 'e'] := rfl

theorem stepSkip (n : List Char) (p : String)
    (h : (pyTitleList false p.data).isPrefixOf n = false) : namePrefixStep n p = n := by
  simp [namePrefixStep, h]

theorem hitMc (r : List Char) :
    namePrefixStep ('M' :: 'c' :: r) "Mc" = 'M' :: 'c' :: upperFirst r := by
  rcases r with _ | ⟨r0, rs⟩ <;>
    simp [namePrefixStep, ptMc, pdMc, List.isPrefixOf, upperFirst]

theorem hitMac (r : List Char) :
    namePrefixStep ('M' :: 'a' :: 'c' :: r) "Mac" = 'M' :: 'a' :: 'c' :: upperFirst r := by
  rcases r with _ | ⟨r0, rs⟩ <;>
    simp [namePrefixStep, ptMac, pdMac, List.isPrefixOf, upperFirst]

theorem hitO (r : List Char) :
    namePrefixStep ('O' :: '\x27' :: r) "O\x27" = 'O' :: '\x27' :: upperFirst r := by
  rcases r with _ | ⟨r0, rs⟩ <;>
    simp [namePrefixStep, ptO, pdO, List.isPrefixOf, upperFirst]

theorem hitDe (r : List Char) :
    namePrefixStep ('D' :: 'e' :: r) "De" = 'D' :: 'e' :: upperFirst r := by
  rcases r with _ | ⟨r0, rs⟩ <;>
    simp [namePrefixStep, ptDe, pdDe, List.isPrefixOf, upperFirst]

theorem hitVan (r : List Char) :
    namePrefixStep ('V' :: 'a' :: 'n' :: r) "Van" = 'V' :: 'a' :: 'n' :: upperFirst r := by
  rcases r with _ | ⟨r0, rs⟩ <;>
    simp [namePrefixStep, ptVan, pdVan, List.isPrefixOf, upperFirst]

theorem hitVon (r : List Char) :
    namePrefixStep ('V' :: 'o' :: 'n' :: r) "Von" = 'V' :: 'o' :: 'n' :: upperFirst r := by
  rcases r with _ | ⟨r0, rs⟩ <;>
    simp [namePrefixStep, ptVon, pdVon, List.isPrefixOf, upperFirst]

theorem hitLa (r : List Char) :
    namePrefixStep ('L' :: 'a' :: r) "La" = 'L' :: 'a' :: upperFirst r := by
  rcases r with _ | ⟨r0, rs⟩ <;>
    simp [namePrefixStep, ptLa, pdLa, List.isPrefixOf, upperFirst]

theorem hitLe (r : List Char) :
    namePrefixStep ('L' :: 'e' :: r) "Le" = 'L' :: 'e' :: upperFirst r := by
  rcases r with _ | ⟨r0, rs⟩ <;>
    simp [namePrefixStep, ptLe, pdLe, List.isPrefixOf, upperFirst]

/-- Claim C10: whenever the title-cased form of a name starts with one
of the special prefixes (Mc, Mac, O-apostrophe, De, Van, Von, La, Le),
`title_case_name` uppercases the character immediately following the
prefix and leaves the rest of the name unchanged — also in ordinary
names that merely begin with those letters, so `mcdowell` becomes
`McDowell` but `dennis` becomes `DeNnis` and `lance` becomes `LaNce`
rather than plain title case. -/
theorem claim_C10_name_rule (name p : String) (hp : p ∈ namePrefixes)
    (hpre : p.data.isPrefixOf (pyTitleList false name.data) = true) :
    titleCaseName name =
      ⟨p.data ++ upperFirst ((pyTitleList false name.data).drop p.data.length)⟩ := by
  fin_cases hp

  · have hne : name ≠ "" := by
      intro h
      rw [h] at hpre
      exact absurd hpre (by decide)
    obtain ⟨r, hr⟩ := List.isPrefixOf_iff_prefix.mp hpre
    simp only [titleCaseName]
    rw [if_neg hne]
    simp only [titleCaseNameList]
    rw [← hr, pdMc, List.drop_left]
    simp only [List.cons_append, List.nil_append]
    simp only [namePrefixes, List.foldl_cons, List.foldl_nil]
    rw [hitMc r]
    rw [stepSkip ('M' :: 'c' :: upperFirst r) "Mac" (by rw [ptMac]; simp [List.isPrefixOf])]
    rw [stepSkip ('M' :: 'c' :: upperFirst r) "O\x27" (by rw [ptO]; simp [List.isPrefixOf])]
    rw [stepSkip ('M' :: 'c' :: upperFirst r) "De" (by rw [ptDe]; simp [List.isPrefixOf])]
    rw [stepSkip ('M' :: 'c' :: upperFirst r) "Van" (by rw [ptVan]; simp [List.isPrefixOf])]
    rw [stepSkip ('M' :: 'c' :: upperFirst r) "Von" (by rw [ptVon]; simp [List.isPrefixOf])]
    rw [stepSkip ('M' :: 'c' :: upperFirst r) "La" (by rw [ptLa]; simp [List.isPrefixOf])]
    rw [stepSkip ('M' :: 'c' :: upperFirst r) "Le" (by rw [ptLe]; simp [List.isPrefixOf])]
  · have hne : name ≠ "" := by
      intro h
      rw [h] at hpre
      exact absurd hpre (by decide)
    obtain ⟨r, hr⟩ := List.isPrefixOf_iff_prefix.mp hpre
    simp only [titleCaseName]
    rw [if_neg hne]
    simp only [titleCaseNameList]
    rw [← hr, pdMac, List.drop_left]
    simp only [List.cons_append, List.nil_append]
    simp only [namePrefixes, List.foldl_cons, List.foldl_nil]
    rw [stepSkip ('M' :: 'a' :: 'c' :: r) "Mc" (by rw [ptMc]; simp [List.isPrefixOf])]
    rw [hitMac r]
    rw [stepSkip ('M' :: 'a' :: 'c' :: upperFirst r) "O\x27" (by rw [ptO]; simp [List.isPrefixOf])]
    rw [stepSkip ('M' :: 'a' :: 'c' :: upperFirst r) "De" (by rw [ptDe]; simp [List.isPrefixOf])]
    rw [stepSkip ('M' :: 'a' :: 'c' :: upperFirst r) "Van" (by rw [ptVan]; simp [List.isPrefixOf])]
    rw [stepSkip ('M' :: 'a' :: 'c' :: upperFirst r) "Von" (by rw [ptVon]; simp [List.isPrefixOf])]
    rw [stepSkip ('M' :: 'a' :: 'c' :: upperFirst r) "La" (by rw [ptLa]; simp [List.isPrefixOf])]
    rw [stepSkip ('M' :: 'a' :: 'c' :: upperFirst r) "Le" (by rw [ptLe]; simp [List.isPrefixOf])]
  · have hne : name ≠ "" := by
      intro h
      rw [h] at hpre
      exact absurd hpre (by decide)
    obtain ⟨r, hr⟩ := List.isPrefixOf_iff_prefix.mp hpre
    simp only [titleCaseName]
    rw [if_neg hne]
    simp only [titleCaseNameList]
    rw [← hr, pdO, List.drop_left]
    simp only [List.cons_append, List.nil_append]
    simp only [namePrefixes, List.foldl_cons, List.foldl_nil]
    rw [stepSkip ('O' :: '\x27' :: r) "Mc" (by rw [ptMc]; simp [List.isPrefixOf])]
    rw [stepSkip ('O' :: '\x27' :: r) "Mac" (by rw [ptMac]; simp [List.isPrefixOf])]
    rw [hitO r]
    rw [stepSkip ('O' :: '\x27' :: upperFirst r) "De" (by rw [ptDe]; simp [List.isPrefixOf])]
    rw [stepSkip ('O' :: '\x27' :: upperFirst r) "Van" (by rw [ptVan]; simp [List.isPrefixOf])]
    rw [stepSkip ('O' :: '\x27' :: upperFirst r) "Von" (by rw [ptVon]; simp [List.isPrefixOf])]
    rw [stepSkip ('O' :: '\x27' :: upperFirst r) "La" (by rw [ptLa]; simp [List.isPrefixOf])]
    rw [stepSkip ('O' :: '\x27' :: upperFirst r) "Le" (by rw [ptLe]; simp [List.isPrefixOf])]
  · have hne : name ≠ "" := by
      intro h
      rw [h] at hpre
      exact absurd hpre (by decide)
    obtain ⟨r, hr⟩ := List.isPrefixOf_iff_prefix.mp hpre
    simp only [titleCaseName]
    rw [if_neg hne]
    simp only [titleCaseNameList]
    rw [← hr, pdDe, List.drop_left]
    simp only [List.cons_append, List.nil_append]
    simp only [namePrefixes, List.foldl_cons, List.foldl_nil]
    rw [stepSkip ('D' :: 'e' :: r) "Mc" (by rw [ptMc]; simp [List.isPrefixOf])]
    rw [stepSkip ('D' :: 'e' :: r) "Mac" (by rw [ptMac]; simp [List.isPrefixOf])]
    rw [stepSkip ('D' :: 'e' :: r) "O\x27" (by rw [ptO]; simp [List.isPrefixOf])]
    rw [hitDe r]
    rw [stepSkip ('D' :: 'e' :: upperFirst r) "Van" (by rw [ptVan]; simp [List.isPrefixOf])]
    rw [stepSkip ('D' :: 'e' :: upperFirst r) "Von" (by rw [ptVon]; simp [List.isPrefixOf])]
    rw [stepSkip ('D' :: 'e' :: upperFirst r) "La" (by rw [ptLa]; simp [List.isPrefixOf])]
    rw [stepSkip ('D' :: 'e' :: upperFirst r) "Le" (by rw [ptLe]; simp [List.isPrefixOf])]
  · have hne : name ≠ "" := by
      intro h
      rw [h] at hpre
      exact absurd hpre (by decide)
    obtain ⟨r, hr⟩ := List.isPrefixOf_iff_prefix.mp hpre
    simp only [titleCaseName]
    rw [if_neg hne]
    simp only [titleCaseNameList]
    rw [← hr, pdVan, List.drop_left]
    simp only [List.cons_append, List.nil_append]
    simp only [namePrefixes, List.foldl_cons, List.foldl_nil]
    rw [stepSkip ('V' :: 'a' :: 'n' :: r) "Mc" (by rw [ptMc]; simp [List.isPrefixOf])]
    rw [stepSkip ('V' :: 'a' :: 'n' :: r) "Mac" (by rw [ptMac]; simp [List.isPrefixOf])]
    rw [stepSkip ('V' :: 'a' :: 'n' :: r) "O\x27" (by rw [ptO]; simp [List.isPrefixOf])]
    rw [stepSkip ('V' :: 'a' :: 'n' :: r) "De" (by rw [ptDe]; simp [List.isPrefixOf])]
    rw [hitVan r]
    rw [stepSkip ('V' :: 'a' :: 'n' :: upperFirst r) "Von" (by rw [ptVon]; simp [List.isPrefixOf])]
    rw [stepSkip ('V' :: 'a' :: 'n' :: upperFirst r) "La" (by rw [ptLa]; simp [List.isPrefixOf])]
    rw [stepSkip ('V' :: 'a' :: 'n' :: upperFirst r) "Le" (by rw [ptLe]; simp [List.isPrefixOf])]
  · have hne : name ≠ "" := by
      intro h
      rw [h] at hpre
      exact absurd hpre (by decide)
    obtain ⟨r, hr⟩ := List.isPrefixOf_iff_prefix.mp hpre
    simp only [titleCaseName]
    rw [if_neg hne]
    simp only [titleCaseNameList]
    rw [← hr, pdVon, List.drop_left]
    simp only [List.cons_append, List.nil_append]
    simp only [namePrefixes, List.foldl_cons, List.foldl_nil]
    rw [stepSkip ('V' :: 'o' :: 'n' :: r) "Mc" (by rw [ptMc]; simp [List.isPrefixOf])]
    rw [stepSkip ('V' :: 'o' :: 'n' :: r) "Mac" (by rw [ptMac]; simp [List.isPrefixOf])]
    rw [stepSkip ('V' :: 'o' :: 'n' :: r) "O\x27" (by rw [ptO]; simp [List.isPrefixOf])]
    rw [stepSkip ('V' :: 'o' :: 'n' :: r) "De" (by rw [ptDe]; simp [List.isPrefixOf])]
    rw [stepSkip ('V' :: 'o' :: 'n' :: r) "Van" (by rw [ptVan]; simp [List.isPrefixOf])]
    rw [hitVon r]
    rw [stepSkip ('V' :: 'o' :: 'n' :: upperFirst r) "La" (by rw [ptLa]; simp [List.isPrefixOf])]
    rw [stepSkip ('V' :: 'o' :: 'n' :: upperFirst r) "Le" (by rw [ptLe]; simp [List.isPrefixOf])]
  · have hne : name ≠ "" := by
      intro h
      rw [h] at hpre
      exact absurd hpre (by decide)
    obtain ⟨r, hr⟩ := List.isPrefixOf_iff_prefix.mp hpre
    simp only [titleCaseName]
    rw [if_neg hne]
    simp only [titleCaseNameList]
    rw [← hr, pdLa, List.drop_left]
    simp only [List.cons_append, List.nil_append]
    simp only [namePrefixes, List.foldl_cons, List.foldl_nil]
    rw [stepSkip ('L' :: 'a' :: r) "Mc" (by rw [ptMc]; simp [List.isPrefixOf])]
    rw [stepSkip ('L' :: 'a' :: r) "Mac" (by rw [ptMac]; simp [List.isPrefixOf])]
    rw [stepSkip ('L' :: 'a' :: r) "O\x27" (by rw [ptO]; simp [List.isPrefixOf])]
    rw [stepSkip ('L' :: 'a' :: r) "De" (by rw [ptDe]; simp [List.isPrefixOf])]
    rw [stepSkip ('L' :: 'a' :: r) "Van" (by rw [ptVan]; simp [List.isPrefixOf])]
    rw [stepSkip ('L' :: 'a' :: r) "Von" (by rw [ptVon]; simp [List.isPrefixOf])]
    rw [hitLa r]
    rw [stepSkip ('L' :: 'a' :: upperFirst r) "Le" (by rw [ptLe]; simp [List.isPrefixOf])]
  · have hne : name ≠ "" := by
      intro h
      rw [h] at hpre
      exact absurd hpre (by decide)
    obtain ⟨r, hr⟩ := List.isPrefixOf_iff_prefix.mp hpre
    simp only [titleCaseName]
    rw [if_neg hne]
    simp only [titleCaseNameList]
    rw [← hr, pdLe, List.drop_left]
    simp only [List.cons_append, List.nil_append]
    simp only [namePrefixes, List.foldl_cons, List.foldl_nil]
    rw [stepSkip ('L' :: 'e' :: r) "Mc" (by rw [ptMc]; simp [List.isPrefixOf])]
    rw [stepSkip ('L' :: 'e' :: r) "Mac" (by rw [ptMac]; simp [List.isPrefixOf])]
    rw [stepSkip ('L' :: 'e' :: r) "O\x27" (by rw [ptO]; simp [List.isPrefixOf])]
    rw [stepSkip ('L' :: 'e' :: r) "De" (by rw [ptDe]; simp [List.isPrefixOf])]
    rw [stepSkip ('L' :: 'e' :: r) "Van" (by rw [ptVan]; simp [List.isPrefixOf])]
    rw [stepSkip ('L' :: 'e' :: r) "Von" (by rw [ptVon]; simp [List.isPrefixOf])]
    rw [stepSkip ('L' :: 'e' :: r) "La" (by rw [ptLa]; simp [List.isPrefixOf])]
    rw [hitLe r]

/-- Witness for claim C10: the rule applied to `mcdowell`, `dennis` and
`lance`. -/
theorem claim_C10_name_rule_witness :
    titleCaseName "mcdowell" = "McDowell" ∧ titleCaseName "dennis" = "DeNnis" ∧
    titleCaseName "lance" = "LaNce" := by
  refine ⟨?_, ?_, ?_⟩
  · rw [claim_C10_name_rule "mcdowell" "Mc" (by decide) (by decide)]
    rfl
  · rw [claim_C10_name_rule "dennis" "De" (by decide) (by decide)]
    rfl
  · rw [claim_C10_name_rule "lance" "La" (by decide) (by decide)]
    rfl

/-- Witness for claim C2 (amended): a concrete named contact whose
search is rejected gets exactly a create call; a contact whose create is
rejected contributes nothing to the pass-1 mapping and the batch
continues. -/
theorem claim_C2_amended_witness :
    (updateOrCreateContact [("First Name", vStr "Mary"), ("Last Name", vStr "Poe")]
        (Except.error ()) (Except.ok "recM") (Except.ok ())).2 =
      [ContactCall.createContact] ∧
    passOne [([("First Name", vStr "Zed"), ("Last Name", vStr "Quill")],
        Except.ok [], Except.error (), Except.ok ())] = passOne [] := by
  constructor
  · exact claim_C2_amended.1 _ (Except.ok "recM") (Except.ok ()) (by decide)
  · exact claim_C2_amended.2.2 _ [] (by decide)
